import Mathlib

/-!
Verification of the nba-game-predictor repository: a shallow embedding of
its prediction engine (team feature calculators, availability adjustment,
matchup feature builders, outcome calibration, heuristic backfill) and of
its accuracy-tracking ledger (NBA per-date reconciliation, NFL
per-prediction reconciliation, stats endpoint), with theorems settling the
specification claims.  Dates are modelled as naturals in YYYYMMDD form:
the source compares equal-length ISO date strings lexicographically,
which orders them exactly as their numeric encodings, with a missing
date (the source's empty string, lexicographically least) encoded as 0.
Python floats are modelled as exact rationals.
-/

/-! ## Basketball dataset rows and `ml_model.NBAGamePredictor.calculate_team_features` -/

/-- One row of the player box-score dataset (`database_24_25.csv`): columns
`Player`, `Tm`, `Opp`, `Data` (the game date), `Res`, `PTS`, `AST`, `TRB`,
`FG%`, `3P%`, `FT%`, `GmSc`. -/
structure BoxRow where
  player : String
  tm : String
  opp : String
  date : Nat
  res : String
  pts : ℚ
  ast : ℚ
  trb : ℚ
  fg : ℚ
  p3 : ℚ
  ft : ℚ
  gmsc : ℚ
deriving DecidableEq, Repr

/-- Insert a row into a date-sorted list, after all rows with an earlier or
equal date (the stable placement `pandas.sort_values` uses). -/
def insertByDate (r : BoxRow) : List BoxRow → List BoxRow
  | [] => [r]
  | x :: xs => if x.date ≤ r.date then x :: insertByDate r xs else r :: x :: xs

/-- `df.sort_values('Data')`: stable sort of the rows by date. -/
def sortByDate (rows : List BoxRow) : List BoxRow :=
  rows.foldl (fun acc r => insertByDate r acc) []

/-- `df[df['Tm'] == team]`. -/
def teamRows (team : String) (df : List BoxRow) : List BoxRow :=
  df.filter (fun r => r.tm = team)

/-- `DataFrame.tail(n)`: the last `n` elements. -/
def tailN (n : Nat) (l : List BoxRow) : List BoxRow :=
  l.drop (l.length - n)

/-- The team-level rolling feature snapshot built by
`calculate_team_features` (one row of its output frame). -/
structure TeamStats where
  avg_pts : ℚ
  avg_ast : ℚ
  avg_trb : ℚ
  avg_fg_pct : ℚ
  avg_3p_pct : ℚ
  avg_ft_pct : ℚ
  win_pct : ℚ
  avg_gmsc : ℚ
  games_played : Nat
deriving DecidableEq, Repr

/-- `ml_model.NBAGamePredictor.calculate_team_features`, restricted to one
team: sort the team's rows by date, take the last 10, and skip the team
(`continue`, modelled as `none`) when fewer than 5 remain; otherwise
average each metric over the selected rows.  The source takes
`.sum()/len` for PTS/AST/TRB and `.mean()` for the percentage columns and
GmSc; both are the sum divided by the row count.  Note the source has no
`as_of_date` parameter: the window is the tail of whatever frame is
passed in, with no temporal cutoff. -/
def nbaTeamFeatures (team : String) (df : List BoxRow) : Option TeamStats :=
  let recent := tailN 10 (sortByDate (teamRows team df))
  if recent.length < 5 then none
  else
    let n : ℚ := recent.length
    some
      { avg_pts := (recent.map (fun r => r.pts)).sum / n
        avg_ast := (recent.map (fun r => r.ast)).sum / n
        avg_trb := (recent.map (fun r => r.trb)).sum / n
        avg_fg_pct := (recent.map (fun r => r.fg)).sum / n
        avg_3p_pct := (recent.map (fun r => r.p3)).sum / n
        avg_ft_pct := (recent.map (fun r => r.ft)).sum / n
        win_pct := ((recent.filter (fun r => r.res = "W")).length : ℚ) / n
        avg_gmsc := (recent.map (fun r => r.gmsc)).sum / n
        games_played := recent.length }

/-! ## Training and inference feature vectors
(`ml_model.NBAGamePredictor.train` / `create_game_features` /
`predict_game`) -/

/-- The `feature_cols` list from `train` (ml_model.py lines 131-134):
the column order the model is fitted on. -/
def featureCols : List String :=
  ["Home_PTS", "Away_PTS", "Home_AST", "Away_AST",
   "Home_TRB", "Away_TRB", "Home_FG_Pct", "Away_FG_Pct",
   "Home_3P_Pct", "Away_3P_Pct", "Home_Win_Pct", "Away_Win_Pct",
   "Home_GmSc", "Away_GmSc", "PTS_Diff", "Win_Pct_Diff"]

/-- The numeric fields of the per-game dict built by
`create_game_features` (ml_model.py lines 98-119), as a map from column
name to value. -/
def gameFeatureRow (home away : TeamStats) : String → ℚ := fun c =>
  if c = "Home_PTS" then home.avg_pts
  else if c = "Away_PTS" then away.avg_pts
  else if c = "Home_AST" then home.avg_ast
  else if c = "Away_AST" then away.avg_ast
  else if c = "Home_TRB" then home.avg_trb
  else if c = "Away_TRB" then away.avg_trb
  else if c = "Home_FG_Pct" then home.avg_fg_pct
  else if c = "Away_FG_Pct" then away.avg_fg_pct
  else if c = "Home_3P_Pct" then home.avg_3p_pct
  else if c = "Away_3P_Pct" then away.avg_3p_pct
  else if c = "Home_Win_Pct" then home.win_pct
  else if c = "Away_Win_Pct" then away.win_pct
  else if c = "Home_GmSc" then home.avg_gmsc
  else if c = "Away_GmSc" then away.avg_gmsc
  else if c = "PTS_Diff" then home.avg_pts - away.avg_pts
  else if c = "Win_Pct_Diff" then home.win_pct - away.win_pct
  else 0

/-- `games_df[feature_cols]`: the training row projected through the
`feature_cols` column order. -/
def trainVector (home away : TeamStats) : List ℚ :=
  featureCols.map (gameFeatureRow home away)

/-- The 16-entry inference feature array assembled by `predict_game`
(ml_model.py lines 177-203), with the injury-adjusted offense stats
computed first (lines 177-184) and the percentages/win rates read
directly off the cached snapshots. -/
def nbaPredictFeatures (home away : TeamStats) (hf af : ℚ) : List ℚ :=
  let home_pts := home.avg_pts * hf
  let away_pts := away.avg_pts * af
  let home_ast := home.avg_ast * hf
  let away_ast := away.avg_ast * af
  let home_trb := home.avg_trb * hf
  let away_trb := away.avg_trb * af
  let home_gmsc := home.avg_gmsc * hf
  let away_gmsc := away.avg_gmsc * af
  [home_pts, away_pts, home_ast, away_ast, home_trb, away_trb,
   home.avg_fg_pct, away.avg_fg_pct, home.avg_3p_pct, away.avg_3p_pct,
   home.win_pct, away.win_pct, home_gmsc, away_gmsc,
   home_pts - away_pts, home.win_pct - away.win_pct]

/-- The prediction record returned by `predict_game` (ml_model.py lines
205-218).  `p0`/`p1` are the two-class probability output of the fitted
classifier for the away (class 0) and home (class 1) side, and `pred` its
predicted class; the calibration below is how the source turns them into
winner/confidence/probabilities. -/
structure NBAPredOut where
  winner : String
  confidence : ℚ
  home_win_prob : ℚ
  away_win_prob : ℚ
  home_injury_factor : ℚ
  away_injury_factor : ℚ
deriving DecidableEq, Repr

/-- `predict_game` output assembly (ml_model.py lines 205-218): the winner
is the home team iff the predicted class is 1, the confidence is the
probability mass of the predicted class, and the win probabilities read
off the probability pair directly. -/
def nbaPredictOutput (home away : String) (p0 p1 : ℚ) (pred : Nat)
    (hf af : ℚ) : NBAPredOut :=
  { winner := if pred = 1 then home else away
    confidence := if pred = 1 then p1 else p0
    home_win_prob := p1
    away_win_prob := p0
    home_injury_factor := hf
    away_injury_factor := af }

/-! ## `nba_data_fetcher.NBADataFetcher.calculate_team_strength_with_injuries` -/

/-- The base/adjusted strength dict of
`calculate_team_strength_with_injuries` (nba_data_fetcher.py lines
100-106 and 140-148). -/
structure Strength where
  avg_pts : ℚ
  avg_ast : ℚ
  avg_trb : ℚ
  win_pct : ℚ
  avg_gmsc : ℚ
deriving DecidableEq, Repr

/-- The fixed descending step table mapping roster-continuity counts to an
injury factor (nba_data_fetcher.py lines 122-137). -/
def nbaInjuryFactorTable (uniquePlayers regularPlayers : Nat) : ℚ :=
  if uniquePlayers ≥ 10 ∧ regularPlayers ≥ 8 then 1
  else if uniquePlayers ≥ 9 ∧ regularPlayers ≥ 7 then 0.95
  else if uniquePlayers ≥ 8 ∧ regularPlayers ≥ 6 then 0.90
  else if uniquePlayers ≥ 7 ∧ regularPlayers ≥ 5 then 0.85
  else if uniquePlayers ≥ 6 then 0.80
  else if uniquePlayers ≥ 5 then 0.75
  else 0.70

/-- The multiplicative adjustment applied to the base strength
(nba_data_fetcher.py lines 140-148): offense stats scaled by the factor,
`win_pct` copied through. -/
def nbaAdjustStrength (base : Strength) (factor : ℚ) : Strength :=
  { avg_pts := base.avg_pts * factor
    avg_ast := base.avg_ast * factor
    avg_trb := base.avg_trb * factor
    win_pct := base.win_pct
    avg_gmsc := base.avg_gmsc * factor }

/-- `calculate_team_strength_with_injuries` (nba_data_fetcher.py lines
90-150): take the team's last 10 rows sorted by date, require at least 5,
compute the base strength, count distinct players in the window and
players appearing in at least 3 of its rows, map them through the step
table and scale.  The network roster call in the source is dead code (its
result is unused) and is omitted. -/
def calculateTeamStrengthWithInjuries (team : String) (df : List BoxRow) :
    Option (Strength × ℚ × Nat) :=
  let recent := tailN 10 (sortByDate (teamRows team df))
  if recent.length < 5 then none
  else
    let n : ℚ := recent.length
    let base : Strength :=
      { avg_pts := (recent.map (fun r => r.pts)).sum / n
        avg_ast := (recent.map (fun r => r.ast)).sum / n
        avg_trb := (recent.map (fun r => r.trb)).sum / n
        win_pct := ((recent.filter (fun r => r.res = "W")).length : ℚ) / n
        avg_gmsc := (recent.map (fun r => r.gmsc)).sum / n }
    let players := (recent.map (fun r => r.player)).dedup
    let uniquePlayers := players.length
    let regularPlayers :=
      (players.filter
        (fun nm => (recent.filter (fun r => r.player = nm)).length ≥ 3)).length
    let factor := nbaInjuryFactorTable uniquePlayers regularPlayers
    some (nbaAdjustStrength base factor, factor, uniquePlayers)

/-! ## Heuristic backfill
(`backfill_historical_predictions._nba_heuristic_predictions`) -/

/-- One entry of `nba_historical_data.json`.  A missing `date` or
`winner` is modelled as the empty string (Python treats both `None` and
`''` as falsy in the source's checks). -/
structure BGame where
  home_team : String
  away_team : String
  date : Nat
  status : String
  winner : String
  home_score : ℚ
  away_score : ℚ
deriving DecidableEq, Repr

/-- The `NBA_TEAMS` abbreviation set
(backfill_historical_predictions.py lines 13-18). -/
def NBA_TEAMS : List String :=
  ["ATL", "BOS", "BKN", "CHA", "CHI", "CLE", "DAL", "DEN", "DET", "GS", "GSW",
   "HOU", "IND", "LAC", "LAL", "MEM", "MIA", "MIL", "MIN", "NO", "NOP", "NY",
   "NYK", "OKC", "ORL", "PHI", "PHX", "POR", "SAC", "SA", "SAS", "SEA", "TOR",
   "UTAH", "WAS", "WSH"]

/-- `completed = [g for g in games if status == 'completed' and winner]`. -/
def completedOf (games : List BGame) : List BGame :=
  games.filter (fun g => g.status = "completed" ∧ g.winner ≠ "")

/-- The completed games the per-game loop actually tallies for a game
dated `cutoff`: the source iterates `by_date` buckets in ascending date
order and breaks at the first date `≥ cutoff`, so it visits exactly the
completed games dated strictly before `cutoff`, each once.  All tallies
taken over them (counts and sums) are order-independent, so the fold
below over this filtered list computes the same per-team tallies. -/
def eligibleGames (games : List BGame) (cutoff : Nat) : List BGame :=
  (completedOf games).filter (fun g => g.date < cutoff)

/-- Per-team tallies accumulated by the heuristic loop: `team_wins`,
`team_games`, and `team_pts` (kept as its sum and length, which is all
the source reads from it). -/
structure Tally where
  wins : Nat
  games : Nat
  ptsSum : ℚ
  ptsLen : Nat
deriving DecidableEq, Repr

/-- Update one team's tally in the map. -/
def updTally (m : String → Tally) (t : String) (f : Tally → Tally) :
    String → Tally :=
  fun x => if x = t then f (m x) else m x

/-- Tally one completed game: both teams get a game and their own score
appended, and the listed winner gets a win
(backfill_historical_predictions.py lines 48-52). -/
def tallyGame (m : String → Tally) (g : BGame) : String → Tally :=
  let m1 := updTally m g.home_team
    (fun t => { t with games := t.games + 1,
                       ptsSum := t.ptsSum + g.home_score,
                       ptsLen := t.ptsLen + 1 })
  let m2 := updTally m1 g.away_team
    (fun t => { t with games := t.games + 1,
                       ptsSum := t.ptsSum + g.away_score,
                       ptsLen := t.ptsLen + 1 })
  updTally m2 g.winner (fun t => { t with wins := t.wins + 1 })

/-- The tallies over every completed game strictly before `cutoff`. -/
def heuristicTally (games : List BGame) (cutoff : Nat) : String → Tally :=
  (eligibleGames games cutoff).foldl tallyGame (fun _ => ⟨0, 0, 0, 0⟩)

/-- A backfill prediction record
(backfill_historical_predictions.py lines 64-72). -/
structure HPred where
  home_team : String
  away_team : String
  date : Nat
  winner : String
  confidence : ℚ
  home_win_prob : ℚ
  away_win_prob : ℚ
deriving DecidableEq, Repr

/-- A team's win rate over earlier completed games (default 0.5 with no
games) and average score (default `fallbackPts` with no recorded scores),
as read off its tally (backfill_historical_predictions.py lines 53-56). -/
def heuristicRates (t : Tally) (fallbackPts : ℚ) : ℚ × ℚ :=
  ((if t.games ≠ 0 then (t.wins : ℚ) / t.games else 0.5),
   (if t.ptsLen ≠ 0 then t.ptsSum / t.ptsLen else fallbackPts))

/-- The prediction record built for one game from the two teams' tallies
(backfill_historical_predictions.py lines 53-72): pick the higher win
rate (ties broken by average score, toward the home team), clip the
confidence to [0.52, 0.92], and split the win probabilities as `conf`
versus `1 - conf`. -/
def heuristicPredRecord (g : BGame) (tally : String → Tally) : HPred :=
  let rh := heuristicRates (tally g.home_team) 100
  let ra := heuristicRates (tally g.away_team) 100
  let wr_h := rh.1
  let wr_a := ra.1
  let avg_h := rh.2
  let avg_a := ra.2
  let winner :=
    if wr_h ≠ wr_a then (if wr_h > wr_a then g.home_team else g.away_team)
    else (if avg_h ≥ avg_a then g.home_team else g.away_team)
  let conf0 : ℚ := if wr_h ≠ wr_a then 0.5 + |wr_h - wr_a| else 0.55
  let conf := min 0.92 (max 0.52 conf0)
  { home_team := g.home_team
    away_team := g.away_team
    date := g.date
    winner := winner
    confidence := conf
    home_win_prob := if winner = g.home_team then conf else 1 - conf
    away_win_prob := if winner = g.home_team then 1 - conf else conf }

/-- The body of the `_nba_heuristic_predictions` per-game loop
(backfill_historical_predictions.py lines 37-72): skip games whose teams
are not NBA abbreviations, otherwise predict from the tallies over the
completed games strictly before the game's date. -/
def heuristicPredFor (games : List BGame) (g : BGame) : Option HPred :=
  if g.home_team ∈ NBA_TEAMS ∧ g.away_team ∈ NBA_TEAMS then
    some (heuristicPredRecord g (heuristicTally games g.date))
  else none

/-! ## NFL model (`nfl_ml_model.NFLGamePredictor`) -/

/-- One completed game row of the NFL game frame
(as built from `nfl_historical_data.json` or `load_data`). -/
structure NGame where
  home_team : String
  away_team : String
  winner : String
  home_score : ℚ
  away_score : ℚ
  date : Nat
  week : Nat
deriving DecidableEq, Repr

/-- `df[(df['home_team'] == t) | (df['away_team'] == t)]`
(nfl_ml_model.py line 88); the frame is not re-sorted. -/
def nflTeamGames (team : String) (df : List NGame) : List NGame :=
  df.filter (fun g => g.home_team = team ∨ g.away_team = team)

/-- `DataFrame.tail(n)` for NFL rows. -/
def ntailN (n : Nat) (l : List NGame) : List NGame :=
  l.drop (l.length - n)

/-- The feature dict returned by the NFL `calculate_team_features`
(nfl_ml_model.py lines 132-139). -/
structure NFLFeat where
  win_rate : ℚ
  avg_points_for : ℚ
  avg_points_against : ℚ
  point_differential : ℚ
  season_win_rate : ℚ
  recent_form : ℚ
deriving DecidableEq, Repr

/-- One step of the recent-games accumulation loop
(nfl_ml_model.py lines 102-113): `(wins, points for, points against,
games count)`. -/
def nflTallyStep (team : String) (acc : Nat × ℚ × ℚ × Nat) (g : NGame) :
    Nat × ℚ × ℚ × Nat :=
  if g.home_team = team then
    (acc.1 + (if g.winner = team then 1 else 0),
     acc.2.1 + g.home_score, acc.2.2.1 + g.away_score, acc.2.2.2 + 1)
  else
    (acc.1 + (if g.winner = team then 1 else 0),
     acc.2.1 + g.away_score, acc.2.2.1 + g.home_score, acc.2.2.2 + 1)

/-- `nfl_ml_model.NFLGamePredictor.calculate_team_features` (lines
86-139): `None` when the team has no games at all; otherwise tally the
last 5 of the team's rows (`None` again if that window is empty, which
only happens with no rows), and compute recent rates plus the
full-season win rate.  There is no minimum-game-count gate beyond
emptiness. -/
def nflTeamFeatures (team : String) (df : List NGame) : Option NFLFeat :=
  let team_games := nflTeamGames team df
  if team_games.length = 0 then none
  else
    let recent := ntailN 5 team_games
    let acc := recent.foldl (nflTallyStep team) (0, 0, 0, 0)
    let wins := acc.1
    let pf := acc.2.1
    let pa := acc.2.2.1
    let cnt := acc.2.2.2
    if cnt = 0 then none
    else
      let win_rate : ℚ := (wins : ℚ) / cnt
      let avg_pf := pf / cnt
      let avg_pa := pa / cnt
      let season_wins :=
        (team_games.filter
          (fun g => (g.home_team = team ∧ g.winner = team) ∨
                    (g.away_team = team ∧ g.winner = team))).length
      let season_games := team_games.length
      some
        { win_rate := win_rate
          avg_points_for := avg_pf
          avg_points_against := avg_pa
          point_differential := avg_pf - avg_pa
          season_win_rate :=
            if season_games > 0 then (season_wins : ℚ) / season_games else 0.5
          recent_form := win_rate }

/-- One injury-report entry (`fetch_injuries` output). -/
structure Injury where
  player : String
  position : String
  status : String
deriving DecidableEq, Repr

/-- `key_positions = ['QB', 'RB', 'WR', 'OL', 'TE']`
(nfl_ml_model.py line 162). -/
def keyPositions : List String := ["QB", "RB", "WR", "OL", "TE"]

/-- Count of injury entries at key positions (nfl_ml_model.py lines
163-164). -/
def keyInjuryCount (injs : List Injury) : Nat :=
  (injs.filter (fun i => i.position ∈ keyPositions)).length

/-- `max(0.7, 1.0 - key_injuries * 0.05)` (nfl_ml_model.py lines
166-167). -/
def nflAvailability (k : Nat) : ℚ :=
  max 0.7 (1 - (k : ℚ) * 0.05)

/-- `injury_data.get(team, [])`: the injury report is a mapping from team
abbreviation to its injury list, modelled as an association list. -/
def lookupInjuries (d : List (String × List Injury)) (team : String) :
    List Injury :=
  match d.find? (fun e => e.1 = team) with
  | some e => e.2
  | none => []

/-- The per-team injury factor computed inside `create_game_features`
(nfl_ml_model.py lines 153-167).  The factor starts at 1.0 and is only
recomputed under `if injury_data:`, which Python takes as false both for
`None` and for an empty dict — so missing injury data fails open to
1.0. -/
def nflTeamInjuryFactor (injuryData : Option (List (String × List Injury)))
    (team : String) : ℚ :=
  match injuryData with
  | none => 1
  | some d =>
    if d = [] then 1
    else nflAvailability (keyInjuryCount (lookupInjuries d team))

/-- `get_venue_info` (nfl_data_fetcher.py lines 207-219): the static
indoor-stadium table, defaulting to outdoor. -/
def indoorTeams : List String :=
  ["ARI", "ATL", "DAL", "DET", "HOU", "IND", "LV", "LAC", "LAR", "MIN", "NO"]

/-- The 15-entry NFL matchup feature vector (nfl_ml_model.py lines
141-189): `None` when either team has no feature snapshot. -/
def nflCreateGameFeatures (home_team away_team : String) (df : List NGame)
    (injuryData : Option (List (String × List Injury))) : Option (List ℚ) :=
  match nflTeamFeatures home_team df, nflTeamFeatures away_team df with
  | some hf, some af =>
    let venue_indoor : ℚ := if home_team ∈ indoorTeams then 1 else 0
    let home_injury_factor := nflTeamInjuryFactor injuryData home_team
    let away_injury_factor := nflTeamInjuryFactor injuryData away_team
    some
      [hf.win_rate, hf.avg_points_for, hf.avg_points_against,
       hf.point_differential, hf.season_win_rate, hf.recent_form,
       af.win_rate, af.avg_points_for, af.avg_points_against,
       af.point_differential, af.season_win_rate, af.recent_form,
       venue_indoor, home_injury_factor, away_injury_factor]
  | _, _ => none

/-- Dot product of the fitted linear model's coefficients with a feature
vector. -/
def dotQ : List ℚ → List ℚ → ℚ
  | [], _ => 0
  | _, [] => 0
  | x :: xs, y :: ys => x * y + dotQ xs ys

/-- Python `int()`: truncation toward zero. -/
def pyInt (q : ℚ) : Int :=
  if 0 ≤ q then ⌊q⌋ else ⌈q⌉

/-- The prediction record returned by the NFL `predict`
(nfl_ml_model.py lines 257-265). -/
structure NFLPredOut where
  winner : String
  confidence : ℚ
  home_win_prob : ℚ
  away_win_prob : ℚ
  predicted_home_score : Int
  predicted_away_score : Int
  point_differential : ℚ
deriving DecidableEq, Repr

/-- The calibration `predict` applies to the regressed point
differential (nfl_ml_model.py lines 244-265). -/
def nflCalibrate (home_team away_team : String) (point_diff : ℚ) :
    NFLPredOut :=
  let winner := if point_diff > 0 then home_team else away_team
  let confidence := min 0.95 (0.5 + |point_diff| / 30)
  let home_score := pyInt ((45 : ℚ) / 2 + point_diff / 2)
  let away_score := pyInt ((45 : ℚ) / 2 - point_diff / 2)
  { winner := winner
    confidence := confidence
    home_win_prob :=
      if point_diff > 0 then 0.5 + point_diff / 60 else 0.5 - |point_diff| / 60
    away_win_prob :=
      if point_diff > 0 then 0.5 - point_diff / 60 else 0.5 + |point_diff| / 60
    predicted_home_score := max 0 home_score
    predicted_away_score := max 0 away_score
    point_differential := point_diff }

/-- `nfl_ml_model.NFLGamePredictor.predict` (lines 234-265): build the
matchup features, apply the fitted linear model (`coefficients`,
`intercept`) to get the point differential, and calibrate it. -/
def nflPredict (coefficients : List ℚ) (intercept : ℚ)
    (home_team away_team : String) (df : List NGame)
    (injuryData : Option (List (String × List Injury))) : Option NFLPredOut :=
  match nflCreateGameFeatures home_team away_team df injuryData with
  | none => none
  | some features =>
    some (nflCalibrate home_team away_team (dotQ coefficients features + intercept))

/-! ## Stats endpoint (`api/stats.handler.do_GET`) -/

/-- The accuracy field computed by the stats endpoint (api/stats.py lines
30-33): a percentage, zero when no predictions were reconciled. -/
def statsAccuracy (total correct : Nat) : ℚ :=
  if total > 0 then ((correct : ℚ) / total) * 100 else 0

/-- The record string (api/stats.py lines 36-38):
wins and losses joined by a dash. -/
def statsRecord (total correct : Nat) : String :=
  toString correct ++ "-" ++ toString ((total : Int) - (correct : Int))

/-! ## NBA accuracy ledger (`daily_predictor.update_accuracy`) -/

/-- One entry of `prediction_stats.json`'s `predictions_history`
(daily_predictor.py lines 189-195). -/
structure NBAHist where
  date : Nat
  predicted : String
  actual : String
  correct : Bool
  confidence : ℚ
deriving DecidableEq, Repr

/-- The NBA ledger (`prediction_stats.json`). -/
structure NBAStats where
  total : Nat
  correct : Nat
  history : List NBAHist
deriving DecidableEq, Repr

/-- A stored daily prediction (`daily_predictions.json` entry). -/
structure DailyPred where
  home_team : String
  away_team : String
  date : Nat
  winner : String
  confidence : ℚ
deriving DecidableEq, Repr

/-- A realized result from the live API (`get_game_results`). -/
structure ApiResult where
  home_team : String
  away_team : String
  winner : String
deriving DecidableEq, Repr

/-- The API-result match test (daily_predictor.py lines 164-165): the
prediction matches the result in either home/away orientation. -/
def apiMatch (p : DailyPred) (r : ApiResult) : Bool :=
  (r.home_team = p.home_team ∧ r.away_team = p.away_team) ∨
  (r.home_team = p.away_team ∧ r.away_team = p.home_team)

/-- The dataset fallback match test (daily_predictor.py lines 171-176):
a box-score row matches a prediction in either Tm/Opp orientation. -/
def dsMatch (p : DailyPred) (row : BoxRow) : Bool :=
  (row.tm = p.home_team ∧ row.opp = p.away_team) ∨
  (row.tm = p.away_team ∧ row.opp = p.home_team)

/-- The realized winner looked up for one prediction (daily_predictor.py
lines 159-179): the first matching API result wins; otherwise the first
matching dataset row, whose winner is `Tm` on a `'W'` and `Opp`
otherwise. -/
def actualWinner (p : DailyPred) (api : List ApiResult)
    (dateGames : List BoxRow) : Option String :=
  match api.find? (apiMatch p) with
  | some r => some r.winner
  | none =>
    match dateGames.find? (dsMatch p) with
    | some row => some (if row.res = "W" then row.tm else row.opp)
    | none => none

/-- Reconcile one prediction of date `d` (daily_predictor.py lines
181-195): when a realized winner is found, bump the counters and append a
history entry; otherwise leave the ledger unchanged. -/
def processPred (d : Nat) (api : List ApiResult) (dateGames : List BoxRow)
    (s : NBAStats) (p : DailyPred) : NBAStats :=
  match actualWinner p api dateGames with
  | none => s
  | some w =>
    { total := s.total + 1
      correct := s.correct + (if w = p.winner then 1 else 0)
      history := s.history ++
        [{ date := d, predicted := p.winner, actual := w,
           correct := decide (w = p.winner), confidence := p.confidence }] }

/-- Process one checked date (daily_predictor.py lines 139-156): skip it
outright when some history entry already carries this date (the
`processed_dates` set computed at entry); otherwise reconcile every
stored prediction for this date against that date's API results and
dataset rows. -/
def processDate (preds : List DailyPred) (api : Nat → List ApiResult)
    (df : List BoxRow) (processed : List Nat) (s : NBAStats)
    (d : Nat) : NBAStats :=
  if d ∈ processed then s
  else
    (preds.filter (fun p => p.date = d)).foldl
      (processPred d (api d) (df.filter (fun r => r.date = d))) s

/-- `daily_predictor.update_accuracy` (lines 114-199): fold the checked
dates over the ledger, with the already-processed date set taken from the
ledger's history once at entry. -/
def updateAccuracy (s : NBAStats) (preds : List DailyPred)
    (api : Nat → List ApiResult) (df : List BoxRow)
    (dates : List Nat) : NBAStats :=
  dates.foldl (processDate preds api df (s.history.map (fun e => e.date))) s

/-! ## NFL accuracy ledger (`nfl_daily_predictor.update_accuracy`) -/

/-- One entry of `nfl_prediction_stats.json`'s `predictions_history`:
the prediction record carrying its own reconciliation marker
(`actual` is `none` while pending). -/
structure NFLHist where
  home_team : String
  away_team : String
  week : Nat
  predicted : String
  actual : Option String
  correct : Bool
deriving DecidableEq, Repr

/-- The NFL ledger (`nfl_prediction_stats.json`). -/
structure NFLStats where
  total : Nat
  correct : Nat
  history : List NFLHist
deriving DecidableEq, Repr

/-- A realized NFL result (from `nfl_historical_data.json` or
`get_game_results`). -/
structure NFLResult where
  home_team : String
  away_team : String
  winner : String
  week : Nat
deriving DecidableEq, Repr

/-- The historical-file match test (nfl_daily_predictor.py lines
111-112): exact home/away orientation, no week check. -/
def nflHistMatch (r : NFLResult) (p : NFLHist) : Bool :=
  p.home_team = r.home_team ∧ p.away_team = r.away_team

/-- The API-results match test (nfl_daily_predictor.py lines 139-141):
exact home/away orientation plus the week. -/
def nflApiMatch (r : NFLResult) (p : NFLHist) : Bool :=
  p.home_team = r.home_team ∧ p.away_team = r.away_team ∧ p.week = r.week

/-- Scan the history for the first entry that matches and is still
pending (`'actual' not in pred or pred.get('actual') is None`), mark it
with the realized winner, and report whether the call was correct
(nfl_daily_predictor.py lines 109-121).  `none` when no pending entry
matches. -/
def markFirst (m : NFLHist → Bool) (w : String) :
    List NFLHist → Option (List NFLHist × Bool)
  | [] => none
  | p :: ps =>
    if m p ∧ p.actual = none then
      some (({ p with actual := some w, correct := decide (p.predicted = w) } :: ps),
            decide (p.predicted = w))
    else
      match markFirst m w ps with
      | none => none
      | some (ps2, c) => some (p :: ps2, c)

/-- Reconcile one realized result against the ledger using match test
`m` (nfl_daily_predictor.py lines 118-125 and 147-154): mark the first
matching pending prediction and bump the counters; no matching pending
prediction leaves the ledger unchanged. -/
def nflStepWith (m : NFLResult → NFLHist → Bool) (s : NFLStats)
    (r : NFLResult) : NFLStats :=
  match markFirst (m r) r.winner s.history with
  | none => s
  | some (h, c) =>
    { total := s.total + 1
      correct := s.correct + (if c then 1 else 0)
      history := h }

/-- Fold a realized-result list over the ledger with match test `m`. -/
def nflFoldWith (m : NFLResult → NFLHist → Bool) (s : NFLStats)
    (rs : List NFLResult) : NFLStats :=
  rs.foldl (nflStepWith m) s

/-- `nfl_daily_predictor.update_accuracy` (lines 92-159): process the
historical-file results (home/away match only), then the API backup
results (home/away/week match). -/
def nflUpdateAccuracy (s : NFLStats) (historicalResults apiResults : List NFLResult) :
    NFLStats :=
  nflFoldWith nflApiMatch (nflFoldWith nflHistMatch s historicalResults) apiResults

/-- The number of still-pending entries of a history list satisfying
`q`: the measure the idempotence argument tracks. -/
def hcount (q : NFLHist → Bool) (h : List NFLHist) : Nat :=
  (h.filter (fun p => q p ∧ p.actual = none)).length

/-- `hcount` over a ledger's history. -/
def pendCount (q : NFLHist → Bool) (s : NFLStats) : Nat :=
  hcount q s.history

/-- An API result with home and away sides swapped (the same realized
game reported from the other side's perspective). -/
def swapApiResult (r : ApiResult) : ApiResult :=
  { home_team := r.away_team, away_team := r.home_team, winner := r.winner }

/-- A box-score row reported from the opposing team's perspective: `Tm`
and `Opp` swapped and the result letter flipped, describing the same
game with the same winner. -/
def swapBoxRow (row : BoxRow) : BoxRow :=
  { row with tm := row.opp, opp := row.tm,
             res := if row.res = "W" then "L" else "W" }

/-! ## Concrete fixtures used by counterexamples and witnesses -/

/-- A one-player box-score row fixture for team BOS. -/
def bosRow (d : Nat) (p : ℚ) : BoxRow :=
  { player := "P1", tm := "BOS", opp := "LAL", date := d, res := "W",
    pts := p, ast := 0, trb := 0, fg := 0, p3 := 0, ft := 0, gmsc := 0 }

/-- Five BOS rows dated before 2025-01-06, 10 points each. -/
def bosHistory : List BoxRow :=
  [bosRow 20250101 10, bosRow 20250102 10, bosRow 20250103 10,
   bosRow 20250104 10, bosRow 20250105 10]

/-- A row dated months after 2025-01-06: a record the temporal cutoff
must exclude for a prediction on that date. -/
def bosFutureRow : BoxRow := bosRow 20250909 110

/-- A single completed NFL game fixture. -/
def neGame : NGame :=
  { home_team := "NE", away_team := "MIA", winner := "NE",
    home_score := 20, away_score := 10, date := 20250907, week := 1 }

/-- A pending NFL ledger entry fixture. -/
def nflPend (hm aw : String) (wk : Nat) (pick : String) : NFLHist :=
  { home_team := hm, away_team := aw, week := wk, predicted := pick,
    actual := none, correct := false }

/-- An NFL ledger holding two pending predictions for the same ordered
(home, away) pair in different weeks. -/
def dupLedger : NFLStats :=
  { total := 0, correct := 0,
    history := [nflPend "DAL" "NYG" 3 "DAL", nflPend "DAL" "NYG" 12 "NYG"] }

/-- One realized result for that pair. -/
def dupResult : NFLResult :=
  { home_team := "DAL", away_team := "NYG", winner := "DAL", week := 3 }

/-- An NFL ledger with one pending prediction for home KC, away DEN. -/
def kcLedger : NFLStats :=
  { total := 0, correct := 0, history := [nflPend "KC" "DEN" 5 "KC"] }

/-- The realized result of that game reported with the sides swapped. -/
def kcSwappedResult : NFLResult :=
  { home_team := "DEN", away_team := "KC", winner := "KC", week := 5 }

/-- A completed historical NBA game fixture. -/
def bosGame1 : BGame :=
  { home_team := "BOS", away_team := "LAL", date := 20250101,
    status := "completed", winner := "BOS", home_score := 110, away_score := 100 }

/-- A later scheduled game between the same teams. -/
def bosGame2 : BGame :=
  { home_team := "BOS", away_team := "LAL", date := 20250105,
    status := "scheduled", winner := "", home_score := 0, away_score := 0 }

/-- A completed game dated after `bosGame2`: the heuristic must ignore it
when predicting `bosGame2`. -/
def bosGame3 : BGame :=
  { home_team := "LAL", away_team := "BOS", date := 20250201,
    status := "completed", winner := "LAL", home_score := 120, away_score := 90 }

/-- The heuristic prediction for `bosGame2` from `bosGame1` alone. -/
def bosHeurPred : HPred :=
  { home_team := "BOS", away_team := "LAL", date := 20250105,
    winner := "BOS", confidence := 23/25,
    home_win_prob := 23/25, away_win_prob := 2/25 }

/-- A stored NBA daily prediction fixture. -/
def nbaPredFix : DailyPred :=
  { home_team := "BOS", away_team := "LAL", date := 20250106,
    winner := "BOS", confidence := 3/5 }

/-- A realized API result for `nbaPredFix`. -/
def nbaResFix : ApiResult :=
  { home_team := "BOS", away_team := "LAL", winner := "LAL" }

/-- An NBA ledger whose history already carries a 2025-01-06 entry. -/
def nbaLedgerFix : NBAStats :=
  { total := 1, correct := 0,
    history := [{ date := 20250106, predicted := "BOS", actual := "LAL",
                  correct := false, confidence := 3/5 }] }

/-- A one-injury report fixture: seven key-position injuries for KC. -/
def kcInjuries : List Injury :=
  [⟨"Q1", "QB", "Out"⟩, ⟨"Q2", "RB", "Out"⟩, ⟨"Q3", "WR", "Out"⟩,
   ⟨"Q4", "TE", "Out"⟩, ⟨"Q5", "OL", "Out"⟩, ⟨"Q6", "QB", "Out"⟩,
   ⟨"Q7", "WR", "Out"⟩]

/-- A linear-model coefficient fixture: weight 1 on the home win rate,
zero elsewhere. -/
def nflCoefsFix : List ℚ :=
  [1, 0, 0, 0, 0, 0, 0, 0, 0, 0, 0, 0, 0, 0, 0]

/-- The prediction `nflPredict nflCoefsFix 3 "NE" "MIA" [neGame] none`
evaluates to. -/
def nflPredOutFix : NFLPredOut :=
  { winner := "NE", confidence := 19/30, home_win_prob := 17/30,
    away_win_prob := 13/30, predicted_home_score := 24,
    predicted_away_score := 20, point_differential := 4 }

/-- The NBA snapshot `nbaTeamFeatures "BOS" bosHistory` evaluates to. -/
def bosSnapshot : TeamStats :=
  { avg_pts := 10, avg_ast := 0, avg_trb := 0, avg_fg_pct := 0,
    avg_3p_pct := 0, avg_ft_pct := 0, win_pct := 1, avg_gmsc := 0,
    games_played := 5 }

/-! ## Supporting lemmas -/

theorem length_insertByDate (r : BoxRow) (l : List BoxRow) :
    (insertByDate r l).length = l.length + 1 := by
  induction l with
  | nil => rfl
  | cons x xs ih =>
    unfold insertByDate
    split
    · simp [ih]
    · simp

theorem length_sortByDate_aux (rows : List BoxRow) :
    ∀ acc : List BoxRow,
      (rows.foldl (fun acc r => insertByDate r acc) acc).length =
        acc.length + rows.length := by
  induction rows with
  | nil => intro acc; simp
  | cons r rs ih =>
    intro acc
    rw [List.foldl_cons, ih, length_insertByDate, List.length_cons]
    omega

theorem length_sortByDate (rows : List BoxRow) :
    (sortByDate rows).length = rows.length := by
  unfold sortByDate
  rw [length_sortByDate_aux]
  simp

theorem if_conf_sum (c : Prop) [Decidable c] (x : ℚ) :
    (if c then x else 1 - x) + (if c then 1 - x else x) = 1 := by
  by_cases h : c <;> simp [h]

theorem heuristicPredRecord_bounds (g : BGame) (tally : String → Tally) :
    0 < (heuristicPredRecord g tally).confidence ∧
    (heuristicPredRecord g tally).confidence ≤ 1 ∧
    (heuristicPredRecord g tally).home_win_prob +
      (heuristicPredRecord g tally).away_win_prob = 1 := by
  unfold heuristicPredRecord
  dsimp only
  refine ⟨lt_min (by norm_num) (lt_of_lt_of_le (by norm_num) (le_max_left _ _)),
    le_trans (min_le_left _ _) (by norm_num), if_conf_sum _ _⟩

theorem nflCalibrate_bounds (h a : String) (pd : ℚ) :
    0 < (nflCalibrate h a pd).confidence ∧
    (nflCalibrate h a pd).confidence ≤ 1 ∧
    (nflCalibrate h a pd).home_win_prob + (nflCalibrate h a pd).away_win_prob = 1 := by
  unfold nflCalibrate
  dsimp only
  have habs : (0 : ℚ) ≤ |pd| := abs_nonneg pd
  refine ⟨lt_min (by norm_num) (by linarith),
    le_trans (min_le_left _ _) (by norm_num), ?_⟩
  by_cases hpd : pd > 0 <;> simp [hpd] <;> ring

/-! ## Claim C3 -/

/-- C3: the 16-entry basketball feature vector assembled by
`predict_game` (with neutral availability factors, as used on training
rows) lists features in exactly the `feature_cols` column order used by
`train`: the inference vector coincides entry by entry with the training
row projected through `feature_cols`. -/
theorem C3_feature_order_train_vs_inference (home away : TeamStats) :
    nbaPredictFeatures home away 1 1 = trainVector home away := by
  simp [nbaPredictFeatures, trainVector, featureCols, gameFeatureRow]

/-! ## Claim C4 -/

/-- C4: the football availability factor is `max(0.70, 1 − 0.05k)` over
the count `k` of injury entries at key positions {QB, RB, WR, TE, OL};
it is exactly 0.70 for every `k ≥ 6`, monotonically non-increasing in
`k`, always within [0.70, 1], and 1.0 when no injury data is supplied
(fail-open). -/
theorem C4_football_availability_factor :
    (∀ d team, d ≠ [] →
      nflTeamInjuryFactor (some d) team =
        max 0.7 (1 - (keyInjuryCount (lookupInjuries d team) : ℚ) * 0.05)) ∧
    (∀ k : Nat, 6 ≤ k → nflAvailability k = 0.7) ∧
    (∀ k k' : Nat, k ≤ k' → nflAvailability k' ≤ nflAvailability k) ∧
    (∀ k : Nat, 0.7 ≤ nflAvailability k ∧ nflAvailability k ≤ 1) ∧
    (∀ team, nflTeamInjuryFactor none team = 1) := by
  refine ⟨?_, ?_, ?_, ?_, ?_⟩
  · intro d team hd
    simp [nflTeamInjuryFactor, nflAvailability, hd]
  · intro k hk
    unfold nflAvailability
    have hk6 : (6 : ℚ) ≤ (k : ℚ) := by exact_mod_cast hk
    apply max_eq_left
    nlinarith
  · intro k k' hkk
    unfold nflAvailability
    have h : (k : ℚ) ≤ (k' : ℚ) := by exact_mod_cast hkk
    apply max_le_max le_rfl
    nlinarith
  · intro k
    have h0 : (0 : ℚ) ≤ (k : ℚ) := Nat.cast_nonneg k
    refine ⟨le_max_left _ _, ?_⟩
    unfold nflAvailability
    apply max_le (by norm_num)
    nlinarith
  · intro team
    rfl

/-- Witness for C4 at concrete inputs: the KC report with seven
key-position injuries, the floor at k = 7, monotonicity from 2 to 9
injuries, the bounds at k = 3, and the fail-open default. -/
theorem C4_football_availability_factor_witness :
    (nflTeamInjuryFactor (some [("KC", kcInjuries)]) "KC" =
      max 0.7 (1 - (keyInjuryCount (lookupInjuries [("KC", kcInjuries)] "KC") : ℚ) * 0.05)) ∧
    nflAvailability 7 = 0.7 ∧
    nflAvailability 9 ≤ nflAvailability 2 ∧
    (0.7 ≤ nflAvailability 3 ∧ nflAvailability 3 ≤ 1) ∧
    nflTeamInjuryFactor none "KC" = 1 :=
  ⟨C4_football_availability_factor.1 [("KC", kcInjuries)] "KC" (by decide),
   C4_football_availability_factor.2.1 7 (by norm_num),
   C4_football_availability_factor.2.2.1 2 9 (by norm_num),
   C4_football_availability_factor.2.2.2.1 3,
   C4_football_availability_factor.2.2.2.2 "KC"⟩

/-! ## Claim C7 -/

/-- C7: applying the injury adjustment multiplies exactly the
offense-correlated entries of the matchup feature vector (points,
assists, rebounds, game-score) by the respective availability factor:
relative to the factor-free vector, entries 0-5 and 12-13 are scaled and
entries 6-11 (shooting percentages, win rates) and 15 (win-rate
difference) pass through unchanged, while entry 14 (the points
difference) is recomputed from the already-scaled points.  The feature
vector never reads the free-throw percentage, so it in particular is
never scaled; and the data fetcher's strength adjustment scales exactly
its four offense fields and copies the win rate through. -/
theorem C7_offense_only_availability_scaling :
    (∀ home away : TeamStats, ∀ hf af : ℚ,
      nbaPredictFeatures home away hf af =
        [hf * ((nbaPredictFeatures home away 1 1).getD 0 0),
         af * ((nbaPredictFeatures home away 1 1).getD 1 0),
         hf * ((nbaPredictFeatures home away 1 1).getD 2 0),
         af * ((nbaPredictFeatures home away 1 1).getD 3 0),
         hf * ((nbaPredictFeatures home away 1 1).getD 4 0),
         af * ((nbaPredictFeatures home away 1 1).getD 5 0),
         (nbaPredictFeatures home away 1 1).getD 6 0,
         (nbaPredictFeatures home away 1 1).getD 7 0,
         (nbaPredictFeatures home away 1 1).getD 8 0,
         (nbaPredictFeatures home away 1 1).getD 9 0,
         (nbaPredictFeatures home away 1 1).getD 10 0,
         (nbaPredictFeatures home away 1 1).getD 11 0,
         hf * ((nbaPredictFeatures home away 1 1).getD 12 0),
         af * ((nbaPredictFeatures home away 1 1).getD 13 0),
         hf * ((nbaPredictFeatures home away 1 1).getD 0 0) -
           af * ((nbaPredictFeatures home away 1 1).getD 1 0),
         (nbaPredictFeatures home away 1 1).getD 15 0]) ∧
    (∀ home away : TeamStats, ∀ hf af x y : ℚ,
      nbaPredictFeatures { home with avg_ft_pct := x }
          { away with avg_ft_pct := y } hf af =
        nbaPredictFeatures home away hf af) ∧
    (∀ base factor,
      nbaAdjustStrength base factor =
        { avg_pts := base.avg_pts * factor, avg_ast := base.avg_ast * factor,
          avg_trb := base.avg_trb * factor, win_pct := base.win_pct,
          avg_gmsc := base.avg_gmsc * factor }) := by
  refine ⟨?_, ?_, ?_⟩
  · intro home away hf af
    simp [nbaPredictFeatures, mul_comm]
  · intro home away hf af x y
    rfl
  · intro base factor
    rfl

/-! ## Claim C5 -/

/-- C5: every emitted prediction satisfies `0 < confidence ≤ 1` and
`home_win_prob + away_win_prob = 1` (exactly, hence within the 1e-6
tolerance): for the heuristic backfill, for the NFL regression predictor
(any fitted coefficients), and for the NBA classifier calibration given
a valid two-class probability pair whose predicted class is the argmax
(ties to class 0, as `numpy.argmax` resolves them). -/
theorem C5_confidence_and_probability_bounds :
    (∀ games g p, heuristicPredFor games g = some p →
      0 < p.confidence ∧ p.confidence ≤ 1 ∧
      p.home_win_prob + p.away_win_prob = 1) ∧
    (∀ (coefficients : List ℚ) (intercept : ℚ) home away df injuryData p,
      nflPredict coefficients intercept home away df injuryData = some p →
      0 < p.confidence ∧ p.confidence ≤ 1 ∧
      p.home_win_prob + p.away_win_prob = 1) ∧
    (∀ (home away : String) (p0 p1 hf af : ℚ) (pred : Nat),
      0 ≤ p0 → 0 ≤ p1 → p0 + p1 = 1 →
      pred = (if p0 < p1 then 1 else 0) →
      0 < (nbaPredictOutput home away p0 p1 pred hf af).confidence ∧
      (nbaPredictOutput home away p0 p1 pred hf af).confidence ≤ 1 ∧
      (nbaPredictOutput home away p0 p1 pred hf af).home_win_prob +
        (nbaPredictOutput home away p0 p1 pred hf af).away_win_prob = 1) := by
  refine ⟨?_, ?_, ?_⟩
  · intro games g p hp
    unfold heuristicPredFor at hp
    split at hp
    · rw [Option.some.injEq] at hp
      rw [← hp]
      exact heuristicPredRecord_bounds g _
    · exact absurd hp (by simp)
  · intro coefficients intercept home away df injuryData p hp
    unfold nflPredict at hp
    split at hp
    · exact absurd hp (by simp)
    · rw [Option.some.injEq] at hp
      rw [← hp]
      exact nflCalibrate_bounds home away _
  · intro home away p0 p1 hf af pred h0 h1 hsum hpred
    subst hpred
    unfold nbaPredictOutput
    dsimp only
    by_cases hlt : p0 < p1
    · simp only [if_pos hlt]
      norm_num
      refine ⟨by linarith, by linarith, by linarith⟩
    · simp only [if_neg hlt]
      norm_num
      push_neg at hlt
      refine ⟨by linarith, by linarith, by linarith⟩

/-- Witness for C5 at concrete inputs: the heuristic prediction for
`bosGame2` from `bosGame1`, the NFL prediction for NE vs MIA with fixture
coefficients, and the NBA calibration at (1/4, 3/4). -/
theorem C5_confidence_and_probability_bounds_witness :
    (0 < bosHeurPred.confidence ∧ bosHeurPred.confidence ≤ 1 ∧
      bosHeurPred.home_win_prob + bosHeurPred.away_win_prob = 1) ∧
    (0 < nflPredOutFix.confidence ∧ nflPredOutFix.confidence ≤ 1 ∧
      nflPredOutFix.home_win_prob + nflPredOutFix.away_win_prob = 1) ∧
    (0 < (nbaPredictOutput "BOS" "LAL" (1/4) (3/4) 1 1 1).confidence ∧
      (nbaPredictOutput "BOS" "LAL" (1/4) (3/4) 1 1 1).confidence ≤ 1 ∧
      (nbaPredictOutput "BOS" "LAL" (1/4) (3/4) 1 1 1).home_win_prob +
        (nbaPredictOutput "BOS" "LAL" (1/4) (3/4) 1 1 1).away_win_prob = 1) :=
  ⟨C5_confidence_and_probability_bounds.1 [bosGame1, bosGame2] bosGame2
      bosHeurPred
      (by norm_num [heuristicPredFor, heuristicPredRecord, heuristicRates,
        heuristicTally, eligibleGames, completedOf, tallyGame, updTally,
        NBA_TEAMS, bosGame1, bosGame2, bosHeurPred, List.filter, List.foldl,
        HPred.mk.injEq,
        show ("BOS" : String) ≠ "LAL" from by decide,
        show ("LAL" : String) ≠ "BOS" from by decide]),
   C5_confidence_and_probability_bounds.2.1 nflCoefsFix 3 "NE" "MIA" [neGame]
      none nflPredOutFix
      (by norm_num [nflPredict, nflCreateGameFeatures, nflTeamFeatures,
        nflTeamGames, ntailN, nflTallyStep, nflTeamInjuryFactor, nflCalibrate,
        dotQ, pyInt, indoorTeams, nflCoefsFix, neGame, nflPredOutFix,
        List.filter, List.foldl, NFLPredOut.mk.injEq,
        show ("NE" : String) ≠ "MIA" from by decide,
        show ("MIA" : String) ≠ "NE" from by decide]),
   C5_confidence_and_probability_bounds.2.2 "BOS" "LAL" (1/4) (3/4) 1 1 1
      (by norm_num) (by norm_num) (by norm_num) (by norm_num)⟩

/-! ## Claim C9 -/

/-- C9 counterexample: the claim states the endpoint returns
`accuracy = correct_predictions / total_predictions`; at total = 2,
correct = 1 the code returns 50 — the ratio times 100 — not 1/2. -/
theorem C9_counterexample :
    statsAccuracy 2 1 = 50 ∧ statsAccuracy 2 1 ≠ 1 / 2 := by
  constructor <;> norm_num [statsAccuracy]

/-- C9 amended: the stats endpoint returns accuracy equal to
`(correct_predictions / total_predictions) * 100` — a percentage — with
0 when `total_predictions` is 0, and the record string
`"{correct}-{total - correct}"`. -/
theorem C9_stats_read_amended :
    (∀ correct, statsAccuracy 0 correct = 0) ∧
    (∀ total correct, 0 < total →
      statsAccuracy total correct * total = 100 * correct) ∧
    (∀ total correct, correct ≤ total →
      statsRecord total correct =
        toString correct ++ "-" ++ toString (total - correct)) := by
  refine ⟨?_, ?_, ?_⟩
  · intro correct
    simp [statsAccuracy]
  · intro total correct ht
    have htq : (total : ℚ) ≠ 0 := Nat.cast_ne_zero.mpr ht.ne'
    unfold statsAccuracy
    rw [if_pos ht]
    field_simp
    ring
  · intro total correct hct
    unfold statsRecord
    rw [show ((total : Int) - (correct : Int)) = ((total - correct : Nat) : Int)
      by omega]
    rfl

/-- Witness for C9 amended at concrete inputs. -/
theorem C9_stats_read_amended_witness :
    statsAccuracy 0 5 = 0 ∧
    statsAccuracy 4 3 * 4 = 100 * 3 ∧
    statsRecord 4 3 = toString 3 ++ "-" ++ toString (4 - 3) :=
  ⟨C9_stats_read_amended.1 5,
   C9_stats_read_amended.2.1 4 3 (by norm_num),
   C9_stats_read_amended.2.2 4 3 (by norm_num)⟩

/-! ## Claim C6 -/

theorem nflTally_count (team : String) :
    ∀ (l : List NGame) (acc : Nat × ℚ × ℚ × Nat),
      (l.foldl (nflTallyStep team) acc).2.2.2 = acc.2.2.2 + l.length := by
  intro l
  induction l with
  | nil => intro acc; simp
  | cons g gs ih =>
    intro acc
    rw [List.foldl_cons, ih, List.length_cons]
    unfold nflTallyStep
    split <;> simp <;> omega

/-- C6 counterexample: the claim states the 5-game minimum also gates the
football feature calculator; a team with a single usable game still gets
a snapshot from it. -/
theorem C6_counterexample :
    (nflTeamGames "NE" [neGame]).length = 1 ∧
    (nflTeamFeatures "NE" [neGame]).isSome = true := by
  constructor
  · decide
  · decide

/-- C6 amended: the basketball calculator yields no snapshot exactly when
the team has fewer than 5 rows (and any snapshot it does yield averaged
at least 5 rows, so its per-metric denominators are positive), while the
football calculator yields no snapshot exactly when the team has no
games at all — its recent window, the denominator of its means, holds at
least one game whenever a snapshot is produced. -/
theorem C6_min_game_gate_amended :
    (∀ team df, nbaTeamFeatures team df = none ↔ (teamRows team df).length < 5) ∧
    (∀ team df f, nbaTeamFeatures team df = some f → 5 ≤ f.games_played) ∧
    (∀ team df, nflTeamFeatures team df = none ↔ nflTeamGames team df = []) ∧
    (∀ team df, nflTeamFeatures team df ≠ none →
      1 ≤ (ntailN 5 (nflTeamGames team df)).length) := by
  have hlen : ∀ team df, (tailN 10 (sortByDate (teamRows team df))).length =
      (teamRows team df).length - ((teamRows team df).length - 10) := by
    intro team df
    unfold tailN
    rw [List.length_drop, length_sortByDate]
  refine ⟨?_, ?_, ?_, ?_⟩
  · intro team df
    unfold nbaTeamFeatures
    dsimp only
    rw [hlen]
    split
    · rename_i h
      exact iff_of_true rfl (by omega)
    · rename_i h
      exact iff_of_false (by simp) (by omega)
  · intro team df f hf
    unfold nbaTeamFeatures at hf
    dsimp only at hf
    rw [hlen] at hf
    split at hf
    · exact absurd hf (by simp)
    · rename_i h
      rw [Option.some.injEq] at hf
      rw [← hf]
      dsimp only
      omega
  · intro team df
    unfold nflTeamFeatures
    dsimp only
    split
    · rename_i h
      simp only [true_iff]
      exact List.length_eq_zero.mp h
    · rename_i h
      have h1 : (ntailN 5 (nflTeamGames team df)).length =
          (nflTeamGames team df).length - ((nflTeamGames team df).length - 5) := by
        unfold ntailN
        rw [List.length_drop]
      rw [nflTally_count]
      dsimp only
      rw [if_neg (by omega)]
      exact iff_of_false (by simp) (fun hnil => h (by simp [hnil]))
  · intro team df hne
    unfold nflTeamFeatures at hne
    dsimp only at hne
    split at hne
    · simp at hne
    · rename_i h
      have h1 : (ntailN 5 (nflTeamGames team df)).length =
          (nflTeamGames team df).length - ((nflTeamGames team df).length - 5) := by
        unfold ntailN
        rw [List.length_drop]
      omega

/-- Witness for C6 amended at concrete inputs: the five-row BOS history
yields a snapshot with at least five games counted, and the one-game NFL
fixture leaves at least one game in the recent window. -/
theorem C6_min_game_gate_amended_witness :
    5 ≤ bosSnapshot.games_played ∧
    1 ≤ (ntailN 5 (nflTeamGames "NE" [neGame])).length :=
  ⟨C6_min_game_gate_amended.2.1 "BOS" bosHistory bosSnapshot
      (by norm_num [nbaTeamFeatures, tailN, sortByDate, teamRows, insertByDate,
        bosHistory, bosRow, bosSnapshot, List.filter, List.foldl,
        TeamStats.mk.injEq]),
   C6_min_game_gate_amended.2.2.2 "NE" [neGame] (by decide)⟩

/-! ## Claim C1 -/

theorem filter_middle {α : Type} (p : α → Bool) (l1 l2 : List α) (a : α)
    (h : p a = false) : (l1 ++ a :: l2).filter p = (l1 ++ l2).filter p := by
  simp [List.filter_append, List.filter_cons, h]

theorem eligibleGames_insert_later (l1 l2 : List BGame) (gNew : BGame)
    (cutoff : Nat) (h : ¬ gNew.date < cutoff) :
    eligibleGames (l1 ++ gNew :: l2) cutoff = eligibleGames (l1 ++ l2) cutoff := by
  unfold eligibleGames completedOf
  have hdate : (fun g : BGame => decide (g.date < cutoff)) gNew = false := by
    simpa using h
  by_cases hc : gNew.status = "completed" ∧ gNew.winner ≠ ""
  · rw [show (l1 ++ gNew :: l2).filter
        (fun g => decide (g.status = "completed" ∧ g.winner ≠ "")) =
        l1.filter (fun g => decide (g.status = "completed" ∧ g.winner ≠ "")) ++
          gNew :: l2.filter (fun g => decide (g.status = "completed" ∧ g.winner ≠ ""))
      by simp [List.filter_append, List.filter_cons, hc]]
    rw [filter_middle (fun g : BGame => decide (g.date < cutoff))
      (l1.filter (fun g => decide (g.status = "completed" ∧ g.winner ≠ "")))
      (l2.filter (fun g => decide (g.status = "completed" ∧ g.winner ≠ "")))
      gNew hdate]
    simp [List.filter_append]
  · rw [filter_middle _ _ _ _ (by simpa using hc)]

/-- C1 counterexample: the claim states the trained-model team-feature
computation uses only records strictly before the prediction date D and
cannot change when a record dated on or after D is added; with D =
2025-01-06 and a record dated 2025-09-09 appended to BOS's history, the
NBA `calculate_team_features` output changes (its window simply takes
the last rows of whatever frame it receives — there is no date cutoff,
so the later-dated record enters the window). -/
theorem C1_counterexample :
    20250106 ≤ bosFutureRow.date ∧
    (nbaTeamFeatures "BOS" (bosHistory ++ [bosFutureRow])).map
        (fun f => f.games_played) ≠
      (nbaTeamFeatures "BOS" bosHistory).map (fun f => f.games_played) := by
  constructor
  · decide
  · decide

/-- C1 amended: the heuristic backfill path does satisfy the no-leakage
invariant: its per-game tallies use only completed games dated strictly
before the game's date, so inserting a record dated on or after that
date anywhere in the history leaves the heuristic prediction unchanged.
(The trained-model feature calculators apply no as-of-date cutoff, as
the counterexample shows.) -/
theorem C1_heuristic_no_future_leakage (l1 l2 : List BGame) (g gNew : BGame)
    (h : ¬ gNew.date < g.date) :
    heuristicPredFor (l1 ++ gNew :: l2) g = heuristicPredFor (l1 ++ l2) g := by
  unfold heuristicPredFor heuristicTally
  rw [eligibleGames_insert_later l1 l2 gNew g.date h]

/-- Witness for C1 amended at concrete inputs: inserting the completed
2025-02-01 game into the history does not change the heuristic
prediction for the 2025-01-05 game. -/
theorem C1_heuristic_no_future_leakage_witness :
    heuristicPredFor [bosGame1, bosGame3] bosGame2 =
      heuristicPredFor [bosGame1] bosGame2 :=
  C1_heuristic_no_future_leakage [bosGame1] [] bosGame2 bosGame3 (by decide)

/-! ## Claim C10 -/

theorem filter_date_of_ne (preds : List DailyPred) (d D : Nat) (hdD : d ≠ D) :
    (preds.filter (fun p => p.date ≠ D)).filter (fun p => p.date = d) =
      preds.filter (fun p => p.date = d) := by
  induction preds with
  | nil => rfl
  | cons p ps ih =>
    by_cases h2 : p.date = D
    · have h1 : ¬ p.date = d := by rw [h2]; exact fun hc => hdD hc.symm
      rw [List.filter_cons, List.filter_cons, if_neg (by simpa using h2),
        if_neg (by simpa using h1)]
      exact ih
    · rw [List.filter_cons, if_pos (by simpa using h2), List.filter_cons,
        List.filter_cons]
      by_cases h1 : p.date = d
      · rw [if_pos (by simpa using h1), if_pos (by simpa using h1), ih]
      · rw [if_neg (by simpa using h1), if_neg (by simpa using h1)]
        exact ih

/-- C10: once any history entry carries date D, `update_accuracy` skips
every stored prediction for D entirely: its result does not depend on
the date-D predictions at all (removing them from the stored prediction
file yields the same ledger), so a date-D prediction left unreconciled
when some other game on D was reconciled is never reconciled by any
later run. -/
theorem C10_per_date_skip (s : NBAStats) (preds : List DailyPred)
    (api : Nat → List ApiResult) (df : List BoxRow) (dates : List Nat)
    (D : Nat) (hD : ∃ e ∈ s.history, e.date = D) :
    updateAccuracy s preds api df dates =
      updateAccuracy s (preds.filter (fun p => p.date ≠ D)) api df dates := by
  unfold updateAccuracy
  have hDP : D ∈ s.history.map (fun e => e.date) := by
    obtain ⟨e, he, hed⟩ := hD
    exact List.mem_map.mpr ⟨e, he, hed⟩
  generalize s.history.map (fun e => e.date) = P at hDP
  suffices hstep : ∀ (l : List Nat) (t : NBAStats),
      l.foldl (processDate preds api df P) t =
        l.foldl (processDate (preds.filter (fun p => p.date ≠ D)) api df P) t by
    exact hstep dates s
  intro l
  induction l with
  | nil => intro t; rfl
  | cons d ds ih =>
    intro t
    rw [List.foldl_cons, List.foldl_cons, ih]
    congr 1
    by_cases hd : d ∈ P
    · unfold processDate
      rw [if_pos hd, if_pos hd]
    · have hdD : d ≠ D := fun hc => hd (hc ▸ hDP)
      unfold processDate
      rw [if_neg hd, if_neg hd, filter_date_of_ne preds d D hdD]

/-- Witness for C10 at concrete inputs: with a 2025-01-06 entry already
in the ledger history, the update ignores the stored 2025-01-06
prediction. -/
theorem C10_per_date_skip_witness :
    updateAccuracy nbaLedgerFix [nbaPredFix] (fun _ => [nbaResFix]) []
        [20250106] =
      updateAccuracy nbaLedgerFix
        ([nbaPredFix].filter (fun p => p.date ≠ 20250106))
        (fun _ => [nbaResFix]) [] [20250106] := by
  apply C10_per_date_skip
  exact ⟨{ date := 20250106, predicted := "BOS", actual := "LAL",
           correct := false, confidence := 3/5 },
         by simp [nbaLedgerFix], rfl⟩

/-! ## NBA reconciliation lemmas for idempotence -/

theorem processPred_history_mem (d : Nat) (api : List ApiResult)
    (dg : List BoxRow) (s : NBAStats) (p : DailyPred) (e : NBAHist)
    (he : e ∈ s.history) : e ∈ (processPred d api dg s p).history := by
  unfold processPred
  split
  · exact he
  · exact List.mem_append_left _ he

theorem predFold_history_mem (d : Nat) (api : List ApiResult)
    (dg : List BoxRow) (ps : List DailyPred) :
    ∀ (s : NBAStats) (e : NBAHist), e ∈ s.history →
      e ∈ (ps.foldl (processPred d api dg) s).history := by
  induction ps with
  | nil => intro s e he; exact he
  | cons p ps ih =>
    intro s e he
    rw [List.foldl_cons]
    exact ih _ e (processPred_history_mem d api dg s p e he)

theorem processDate_history_mem (preds : List DailyPred)
    (api : Nat → List ApiResult) (df : List BoxRow) (P : List Nat)
    (s : NBAStats) (d : Nat) (e : NBAHist) (he : e ∈ s.history) :
    e ∈ (processDate preds api df P s d).history := by
  unfold processDate
  split
  · exact he
  · exact predFold_history_mem _ _ _ _ s e he

theorem dateFold_history_mem (preds : List DailyPred)
    (api : Nat → List ApiResult) (df : List BoxRow) (P : List Nat)
    (dates : List Nat) :
    ∀ (s : NBAStats) (e : NBAHist), e ∈ s.history →
      e ∈ (dates.foldl (processDate preds api df P) s).history := by
  induction dates with
  | nil => intro s e he; exact he
  | cons d ds ih =>
    intro s e he
    rw [List.foldl_cons]
    exact ih _ e (processDate_history_mem preds api df P s d e he)

theorem predFold_counts_date (d : Nat) (api : List ApiResult)
    (dg : List BoxRow) (ps : List DailyPred) :
    ∀ (s : NBAStats), (∃ p ∈ ps, actualWinner p api dg ≠ none) →
      ∃ e ∈ (ps.foldl (processPred d api dg) s).history, e.date = d := by
  induction ps with
  | nil =>
    intro s h
    obtain ⟨p, hp, _⟩ := h
    exact absurd hp (by simp)
  | cons q ps ih =>
    intro s h
    rw [List.foldl_cons]
    rcases hq : actualWinner q api dg with _ | w
    · apply ih
      obtain ⟨p, hp, hw⟩ := h
      rcases List.mem_cons.mp hp with rfl | hps
      · exact absurd hq hw
      · exact ⟨p, hps, hw⟩
    · have hmem : ({ date := d, predicted := q.winner, actual := w,
                     correct := decide (w = q.winner),
                     confidence := q.confidence } :
            NBAHist) ∈ (processPred d api dg s q).history := by
        unfold processPred
        rw [hq]
        exact List.mem_append_right _ (List.mem_singleton.mpr rfl)
      exact ⟨_, predFold_history_mem d api dg ps _ _ hmem, rfl⟩

theorem predFold_no_result_id (d : Nat) (api : List ApiResult)
    (dg : List BoxRow) (ps : List DailyPred) :
    ∀ (s : NBAStats), (∀ p ∈ ps, actualWinner p api dg = none) →
      ps.foldl (processPred d api dg) s = s := by
  induction ps with
  | nil => intro s _; rfl
  | cons q ps ih =>
    intro s h
    rw [List.foldl_cons]
    have hq : processPred d api dg s q = s := by
      unfold processPred
      rw [h q (List.mem_cons_self q ps)]
    rw [hq]
    exact ih s (fun p hp => h p (List.mem_cons_of_mem q hp))

theorem dateFold_records_counted_date (preds : List DailyPred)
    (api : Nat → List ApiResult) (df : List BoxRow) (P : List Nat)
    (dates : List Nat) (d : Nat) :
    ∀ (s : NBAStats), d ∈ dates → d ∉ P →
      (∃ p ∈ preds.filter (fun p => p.date = d),
        actualWinner p (api d) (df.filter (fun r => r.date = d)) ≠ none) →
      ∃ e ∈ (dates.foldl (processDate preds api df P) s).history, e.date = d := by
  induction dates with
  | nil => intro s hmem; exact absurd hmem (by simp)
  | cons d2 ds ih =>
    intro s hmem hP hex
    rw [List.foldl_cons]
    rcases List.mem_cons.mp hmem with rfl | hds
    · have hstep : ∃ e ∈ (processDate preds api df P s d).history, e.date = d := by
        unfold processDate
        rw [if_neg hP]
        exact predFold_counts_date d (api d) (df.filter (fun r => r.date = d))
          (preds.filter (fun p => p.date = d)) s hex
      obtain ⟨e, he, hed⟩ := hstep
      exact ⟨e, dateFold_history_mem preds api df P ds _ e he, hed⟩
    · exact ih _ hds hP hex

theorem foldl_id_of_fixed {α β : Type} (f : β → α → β) (l : List α) (b : β)
    (h : ∀ x ∈ l, f b x = b) : l.foldl f b = b := by
  induction l with
  | nil => rfl
  | cons x xs ih =>
    rw [List.foldl_cons, h x (List.mem_cons_self x xs)]
    exact ih (fun y hy => h y (List.mem_cons_of_mem x hy))

/-! ## NFL reconciliation lemmas for idempotence -/

theorem hcount_cons_pos (m : NFLHist → Bool) (p : NFLHist) (ps : List NFLHist)
    (hp : m p ∧ p.actual = none) :
    hcount m (p :: ps) = hcount m ps + 1 := by
  unfold hcount
  rw [List.filter_cons, if_pos (by simpa using hp), List.length_cons]

theorem hcount_cons_neg (m : NFLHist → Bool) (p : NFLHist) (ps : List NFLHist)
    (hp : ¬ (m p ∧ p.actual = none)) :
    hcount m (p :: ps) = hcount m ps := by
  unfold hcount
  rw [List.filter_cons, if_neg (by simpa using hp)]

theorem markFirst_none_iff (m : NFLHist → Bool) (w : String) :
    ∀ h : List NFLHist, markFirst m w h = none ↔ hcount m h = 0 := by
  intro h
  induction h with
  | nil => simp [markFirst, hcount]
  | cons p ps ih =>
    unfold markFirst
    by_cases hp : m p ∧ p.actual = none
    · rw [if_pos hp, hcount_cons_pos m p ps hp]
      simp
    · rw [if_neg hp, hcount_cons_neg m p ps hp]
      rcases hm : markFirst m w ps with _ | pc
      · rw [hm] at ih
        simpa using ih
      · rw [hm] at ih
        simp only [Option.map_some]
        constructor
        · intro hc
          exact absurd hc (by simp)
        · intro hc
          exact absurd (ih.mpr hc) (by simp)

theorem markFirst_count_le (q : NFLHist → Bool)
    (m : NFLHist → Bool) (w : String) :
    ∀ (h h2 : List NFLHist) (c : Bool), markFirst m w h = some (h2, c) →
      hcount q h2 ≤ hcount q h := by
  intro h
  induction h with
  | nil => intro h2 c hc; exact absurd hc (by simp [markFirst])
  | cons p ps ih =>
    intro h2 c hc
    unfold markFirst at hc
    by_cases hp : m p ∧ p.actual = none
    · rw [if_pos hp, Option.some.injEq, Prod.mk.injEq] at hc
      rw [← hc.1]
      rw [hcount_cons_neg q _ ps (by simp)]
      by_cases hqp : q p ∧ p.actual = none
      · rw [hcount_cons_pos q p ps hqp]
        omega
      · rw [hcount_cons_neg q p ps hqp]
    · rw [if_neg hp] at hc
      rcases hm : markFirst m w ps with _ | pc
      · rw [hm] at hc
        exact absurd hc (by simp)
      · rw [hm] at hc
        simp only [Option.map_some, Option.some.injEq, Prod.mk.injEq] at hc
        rw [← hc.1]
        by_cases hqp : q p ∧ p.actual = none
        · rw [hcount_cons_pos q p pc.1 hqp, hcount_cons_pos q p ps hqp]
          have := ih pc.1 pc.2 (by rw [hm])
          omega
        · rw [hcount_cons_neg q p pc.1 hqp, hcount_cons_neg q p ps hqp]
          exact ih pc.1 pc.2 (by rw [hm])

theorem markFirst_count_exact (m : NFLHist → Bool) (w : String) :
    ∀ (h h2 : List NFLHist) (c : Bool), markFirst m w h = some (h2, c) →
      hcount m h2 + 1 = hcount m h := by
  intro h
  induction h with
  | nil => intro h2 c hc; exact absurd hc (by simp [markFirst])
  | cons p ps ih =>
    intro h2 c hc
    unfold markFirst at hc
    by_cases hp : m p ∧ p.actual = none
    · rw [if_pos hp, Option.some.injEq, Prod.mk.injEq] at hc
      rw [← hc.1]
      rw [hcount_cons_neg m _ ps (by simp), hcount_cons_pos m p ps hp]
    · rw [if_neg hp] at hc
      rcases hmk : markFirst m w ps with _ | pc
      · rw [hmk] at hc
        exact absurd hc (by simp)
      · rw [hmk] at hc
        simp only [Option.map_some, Option.some.injEq, Prod.mk.injEq] at hc
        rw [← hc.1]
        rw [hcount_cons_neg m p pc.1 hp, hcount_cons_neg m p ps hp]
        exact ih pc.1 pc.2 (by rw [hmk])

theorem stepWith_count_le (q : NFLHist → Bool)
    (m : NFLResult → NFLHist → Bool) (s : NFLStats) (r : NFLResult) :
    pendCount q (nflStepWith m s r) ≤ pendCount q s := by
  unfold nflStepWith pendCount
  rcases hmk : markFirst (m r) r.winner s.history with _ | hc
  · exact le_refl _
  · obtain ⟨h2, c2⟩ := hc
    dsimp only
    exact markFirst_count_le q (m r) r.winner s.history h2 c2 hmk

theorem stepWith_count_kill (m : NFLResult → NFLHist → Bool) (r : NFLResult)
    (s : NFLStats) (h1 : pendCount (m r) s ≤ 1) :
    pendCount (m r) (nflStepWith m s r) = 0 := by
  unfold nflStepWith pendCount
  unfold pendCount at h1
  rcases hmk : markFirst (m r) r.winner s.history with _ | hc
  · exact (markFirst_none_iff (m r) r.winner s.history).mp hmk
  · obtain ⟨h2, c2⟩ := hc
    have hx := markFirst_count_exact (m r) r.winner s.history h2 c2 hmk
    dsimp only
    omega

theorem stepWith_id (m : NFLResult → NFLHist → Bool) (s : NFLStats)
    (r : NFLResult) (h : pendCount (m r) s = 0) :
    nflStepWith m s r = s := by
  unfold nflStepWith
  rw [(markFirst_none_iff (m r) r.winner s.history).mpr h]

theorem foldWith_count_le (q : NFLHist → Bool)
    (m : NFLResult → NFLHist → Bool) (rs : List NFLResult) :
    ∀ s : NFLStats, pendCount q (nflFoldWith m s rs) ≤ pendCount q s := by
  induction rs with
  | nil => intro s; exact le_refl _
  | cons r rs ih =>
    intro s
    unfold nflFoldWith
    rw [List.foldl_cons]
    exact le_trans (ih (nflStepWith m s r)) (stepWith_count_le q m s r)

theorem foldWith_count_kill (m : NFLResult → NFLHist → Bool)
    (rs : List NFLResult) (r : NFLResult) (hr : r ∈ rs) :
    ∀ s : NFLStats, pendCount (m r) s ≤ 1 →
      pendCount (m r) (nflFoldWith m s rs) = 0 := by
  induction rs with
  | nil => exact absurd hr (by simp)
  | cons r2 rs ih =>
    intro s hle
    unfold nflFoldWith
    rw [List.foldl_cons]
    rcases List.mem_cons.mp hr with rfl | hrs
    · have h0 : pendCount (m r) (nflStepWith m s r) = 0 :=
        stepWith_count_kill m r s hle
      have := foldWith_count_le (m r) m rs (nflStepWith m s r)
      unfold nflFoldWith at this
      omega
    · exact ih hrs (nflStepWith m s r2)
        (le_trans (stepWith_count_le (m r) m s r2) hle)

theorem foldWith_id (m : NFLResult → NFLHist → Bool) (s : NFLStats)
    (rs : List NFLResult) (h : ∀ r ∈ rs, pendCount (m r) s = 0) :
    nflFoldWith m s rs = s := by
  unfold nflFoldWith
  exact foldl_id_of_fixed _ rs s (fun r hr => stepWith_id m s r (h r hr))

theorem hcount_mono_pred (q q2 : NFLHist → Bool)
    (himp : ∀ p, q p = true → q2 p = true) :
    ∀ h : List NFLHist, hcount q h ≤ hcount q2 h := by
  intro h
  induction h with
  | nil => exact le_refl _
  | cons p ps ih =>
    by_cases hp : q p ∧ p.actual = none
    · rw [hcount_cons_pos q p ps hp,
        hcount_cons_pos q2 p ps ⟨himp p hp.1, hp.2⟩]
      omega
    · rw [hcount_cons_neg q p ps hp]
      by_cases hp2 : q2 p ∧ p.actual = none
      · rw [hcount_cons_pos q2 p ps hp2]
        omega
      · rw [hcount_cons_neg q2 p ps hp2]
        exact ih

/-! ## Claim C2 -/

/-- C2 counterexample: the claim states that re-running the accuracy
update with the same realized-result set leaves the counters unchanged;
with two pending NFL predictions for the same ordered (home, away) pair
in different weeks — the historical-file path matches on teams only —
one realized result reconciles one prediction on the first run and the
other on the second, so `total_predictions` goes 1 then 2. -/
theorem C2_counterexample :
    (nflUpdateAccuracy dupLedger [dupResult] []).total = 1 ∧
    (nflUpdateAccuracy (nflUpdateAccuracy dupLedger [dupResult] [])
        [dupResult] []).total = 2 := by
  constructor
  · decide
  · decide

/-- C2 amended: the NBA per-date mechanism is unconditionally idempotent
— a second run with the same stored predictions, result sources and date
window leaves the whole ledger (counters and history) unchanged.  The
NFL per-prediction mechanism is idempotent provided no two pending
history entries share the same ordered (home_team, away_team) pair;
without that proviso a second run can reconcile a further prediction
against the same result (see the counterexample). -/
theorem C2_idempotent_reconciliation_amended :
    (∀ (s : NBAStats) (preds : List DailyPred) (api : Nat → List ApiResult)
        (df : List BoxRow) (dates : List Nat),
      updateAccuracy (updateAccuracy s preds api df dates) preds api df dates =
        updateAccuracy s preds api df dates) ∧
    (∀ (s : NFLStats) (hr ar : List NFLResult),
      (∀ hm aw, hcount
          (fun p => p.home_team = hm ∧ p.away_team = aw) s.history ≤ 1) →
      nflUpdateAccuracy (nflUpdateAccuracy s hr ar) hr ar =
        nflUpdateAccuracy s hr ar) := by
  constructor
  · intro s preds api df dates
    show dates.foldl (processDate preds api df
        ((updateAccuracy s preds api df dates).history.map (fun e => e.date)))
        (updateAccuracy s preds api df dates) =
      updateAccuracy s preds api df dates
    apply foldl_id_of_fixed
    intro d hd
    by_cases hP : d ∈ (updateAccuracy s preds api df dates).history.map
        (fun e => e.date)
    · unfold processDate
      rw [if_pos hP]
    · unfold processDate
      rw [if_neg hP]
      apply predFold_no_result_id
      intro p hp
      by_contra hw
      have hP0 : d ∉ s.history.map (fun e => e.date) := by
        intro hc
        apply hP
        obtain ⟨e, he, hed⟩ := List.mem_map.mp hc
        exact List.mem_map.mpr
          ⟨e, dateFold_history_mem preds api df _ dates s e he, hed⟩
      have hrec := dateFold_records_counted_date preds api df
        (s.history.map (fun e => e.date)) dates d s hd hP0 ⟨p, hp, hw⟩
      obtain ⟨e, he, hed⟩ := hrec
      exact hP (List.mem_map.mpr ⟨e, he, hed⟩)
  · intro s hr ar huniq
    have hhist0 : ∀ r ∈ hr,
        pendCount (nflHistMatch r) (nflUpdateAccuracy s hr ar) = 0 := by
      intro r hrr
      have h0 : pendCount (nflHistMatch r) (nflFoldWith nflHistMatch s hr) = 0 :=
        foldWith_count_kill nflHistMatch hr r hrr s
          (huniq r.home_team r.away_team)
      have hle := foldWith_count_le (nflHistMatch r) nflApiMatch ar
        (nflFoldWith nflHistMatch s hr)
      unfold nflUpdateAccuracy
      omega
    have hapi0 : ∀ r ∈ ar,
        pendCount (nflApiMatch r) (nflUpdateAccuracy s hr ar) = 0 := by
      intro r hrr
      have himp : ∀ p, nflApiMatch r p = true →
          (fun p : NFLHist =>
            (decide (p.home_team = r.home_team ∧ p.away_team = r.away_team)))
            p = true := by
        intro p hp
        simp only [nflApiMatch, decide_eq_true_eq] at hp
        simp [hp.1, hp.2.1]
      have hle1 : pendCount (nflApiMatch r) s ≤ 1 :=
        le_trans (hcount_mono_pred _ _ himp s.history)
          (huniq r.home_team r.away_team)
      have hle2 : pendCount (nflApiMatch r) (nflFoldWith nflHistMatch s hr) ≤ 1 :=
        le_trans (foldWith_count_le (nflApiMatch r) nflHistMatch hr s) hle1
      exact foldWith_count_kill nflApiMatch ar r hrr
        (nflFoldWith nflHistMatch s hr) hle2
    show nflFoldWith nflApiMatch
        (nflFoldWith nflHistMatch (nflUpdateAccuracy s hr ar) hr) ar =
      nflUpdateAccuracy s hr ar
    rw [foldWith_id nflHistMatch (nflUpdateAccuracy s hr ar) hr hhist0]
    exact foldWith_id nflApiMatch (nflUpdateAccuracy s hr ar) ar hapi0

/-- Witness for C2 amended at concrete inputs: re-running the NBA update
over one date, and the NFL update over a one-entry pending ledger,
changes nothing. -/
theorem C2_idempotent_reconciliation_amended_witness :
    updateAccuracy
        (updateAccuracy nbaLedgerFix [nbaPredFix] (fun _ => [nbaResFix]) []
          [20250107])
        [nbaPredFix] (fun _ => [nbaResFix]) [] [20250107] =
      updateAccuracy nbaLedgerFix [nbaPredFix] (fun _ => [nbaResFix]) []
        [20250107] ∧
    nflUpdateAccuracy (nflUpdateAccuracy kcLedger [kcSwappedResult] [])
        [kcSwappedResult] [] =
      nflUpdateAccuracy kcLedger [kcSwappedResult] [] :=
  ⟨C2_idempotent_reconciliation_amended.1 nbaLedgerFix [nbaPredFix]
      (fun _ => [nbaResFix]) [] [20250107],
   C2_idempotent_reconciliation_amended.2 kcLedger [kcSwappedResult] []
      (fun _ _ => le_trans (List.length_filter_le _ _) le_rfl)⟩

/-! ## Claim C8 -/

/-- C8 counterexample: the claim states both accuracy-update paths match
a realized result regardless of which side it lists as home; in the NFL
path a pending KC-vs-DEN prediction is never reconciled by the same
game's result reported with the sides swapped — both result sources
leave the entry pending and the counters untouched. -/
theorem C8_counterexample :
    (nflUpdateAccuracy kcLedger [kcSwappedResult] [kcSwappedResult]).total = 0 ∧
    (nflUpdateAccuracy kcLedger [kcSwappedResult]
        [kcSwappedResult]).history.map (fun p => p.actual) = [none] := by
  constructor
  · decide
  · decide

/-- C8 amended: the NBA path matches order-independently — swapping the
reported home/away sides of every API result (or every dataset row,
with its result letter flipped accordingly) never changes the realized
winner looked up for a prediction — while both NFL match tests require
the exact home/away orientation: a result whose ordered teams match no
history entry reconciles nothing. -/
theorem C8_matching_orientation_amended :
    (∀ (p : DailyPred) (rs : List ApiResult) (dg : List BoxRow),
      actualWinner p (rs.map swapApiResult) dg = actualWinner p rs dg) ∧
    (∀ (p : DailyPred) (rs : List ApiResult) (dg : List BoxRow),
      actualWinner p rs (dg.map swapBoxRow) = actualWinner p rs dg) ∧
    (∀ (s : NFLStats) (r : NFLResult),
      (∀ q ∈ s.history,
        ¬(q.home_team = r.home_team ∧ q.away_team = r.away_team)) →
      nflStepWith nflHistMatch s r = s ∧ nflStepWith nflApiMatch s r = s) := by
  refine ⟨?_, ?_, ?_⟩
  · intro p rs dg
    unfold actualWinner
    rw [List.find?_map]
    have hcomp : (apiMatch p ∘ swapApiResult) = apiMatch p := by
      funext r
      show apiMatch p (swapApiResult r) = apiMatch p r
      unfold apiMatch swapApiResult
      exact decide_eq_decide.mpr (by dsimp only; tauto)
    rw [hcomp]
    rcases hf : rs.find? (apiMatch p) with _ | r
    · rfl
    · simp [swapApiResult]
  · intro p rs dg
    unfold actualWinner
    rcases hf : rs.find? (apiMatch p) with _ | r
    · rw [List.find?_map]
      have hcomp : (dsMatch p ∘ swapBoxRow) = dsMatch p := by
        funext row
        show dsMatch p (swapBoxRow row) = dsMatch p row
        unfold dsMatch swapBoxRow
        exact decide_eq_decide.mpr (by dsimp only; tauto)
      rw [hcomp]
      rcases hg : dg.find? (dsMatch p) with _ | row
      · rfl
      · simp only [Option.map_some]
        by_cases hres : row.res = "W" <;>
          simp [swapBoxRow, hres]
    · rfl
  · intro s r hno
    have hzero : ∀ m : NFLHist → Bool,
        (∀ q, m q = true →
          q.home_team = r.home_team ∧ q.away_team = r.away_team) →
        hcount m s.history = 0 := by
      intro m himp
      unfold hcount
      rw [List.length_eq_zero, List.filter_eq_nil_iff]
      intro q hq
      simp only [decide_eq_true_eq, not_and]
      intro hm _
      exact absurd (himp q hm) (hno q hq)
    constructor
    · apply stepWith_id
      exact hzero (nflHistMatch r)
        (fun q hq => by simpa [nflHistMatch] using hq)
    · apply stepWith_id
      exact hzero (nflApiMatch r)
        (fun q hq => by
          simp only [nflApiMatch, decide_eq_true_eq] at hq
          exact ⟨hq.1, hq.2.1⟩)

/-- Witness for C8 amended at concrete inputs: side-swapping the one API
result does not change the NBA lookup, and the swapped-orientation NFL
result reconciles nothing against the KC ledger. -/
theorem C8_matching_orientation_amended_witness :
    actualWinner nbaPredFix ([nbaResFix].map swapApiResult) [] =
      actualWinner nbaPredFix [nbaResFix] [] ∧
    (nflStepWith nflHistMatch kcLedger kcSwappedResult = kcLedger ∧
      nflStepWith nflApiMatch kcLedger kcSwappedResult = kcLedger) :=
  ⟨C8_matching_orientation_amended.1 nbaPredFix [nbaResFix] [],
   C8_matching_orientation_amended.2.2 kcLedger kcSwappedResult
     (by
       intro q hq
       have hq2 : q = nflPend "KC" "DEN" 5 "KC" := by
         simpa [kcLedger] using hq
       rw [hq2]
       simp [nflPend, kcSwappedResult])⟩
